import Mathlib

/-!
Shallow embedding of the request-governance layer of the `insomnia` SDK:
the rate limiter (`src/services/rateLimiter.js`), the TTL cache
(`src/services/cache.js`, wrapping `node-cache`), and the governed fetch
operations with their retry wrapper and error taxonomy
(`src/services/sleepData.js`).  All time values are integer milliseconds,
matching `Date.now()`.  JavaScript `null`/`undefined` are modelled with
`Option`; thrown exceptions with `Except`.
-/

namespace Insomnia

/-! ## Rate limiter (`src/services/rateLimiter.js`) -/

/-- `RATE_LIMITER_CONFIG`: spread of `config.rateLimit` plus the literal
constants of `rateLimiter.js`.  `burstLimit` is
`maxRequestsPerMinute * 1.5`, a possibly non-integral JS number, hence `ℚ`. -/
structure RateLimiterConfig where
  maxRequestsPerMinute : Nat
  windowSize : Int
  blockDuration : Int
  burstLimit : ℚ
  deriving DecidableEq, Repr

/-- The configuration actually built in `rateLimiter.js` with the default
`maxRequestsPerMinute = 60` from `config/index.js`:
`windowSize = 60000`, `blockDuration = 300000`, `burstLimit = 60 * 1.5 = 90`. -/
def defaultRateLimiterConfig : RateLimiterConfig :=
  { maxRequestsPerMinute := 60
    windowSize := 60000
    blockDuration := 300000
    burstLimit := 90 }

/-- `rateLimiterState.stats`. -/
structure RateLimiterStats where
  totalRequests : Nat
  blockedRequests : Nat
  successfulRequests : Nat
  deriving DecidableEq, Repr

/-- `rateLimiterState` (`lastResetTime` is the spec's `windowStart`;
`blockedUntil` is `null` or a timestamp). -/
structure RateLimiterState where
  requestCount : Nat
  lastResetTime : Int
  blockedUntil : Option Int
  stats : RateLimiterStats
  deriving DecidableEq, Repr

/-- The object returned by `checkRateLimit`. -/
structure RateLimitResult where
  allowed : Bool
  remaining : Int
  reset : Int
  retryAfter : Option Int
  deriving DecidableEq, Repr

/-- JS guard `rateLimiterState.blockedUntil && currentTime < rateLimiterState.blockedUntil`:
`null` is falsy, and so is the number `0`. -/
def activeBlock (blockedUntil : Option Int) (now : Int) : Bool :=
  match blockedUntil with
  | none => false
  | some b => b != 0 && decide (now < b)

/-- `checkRateLimit` of `src/services/rateLimiter.js`, with explicit state
passing.  The source handles the burst branch by a recursive call
(`return checkRateLimit(identifier)`); the recursion is modelled with fuel,
`none` meaning the JS call would not terminate (unbounded recursion).
Branches in source order: active-block check, window reset, burst check
(recursive), per-minute limit, allow.  Note that `stats.totalRequests` is
incremented only on the allow path, exactly as in the source. -/
def checkRateLimitAux (cfg : RateLimiterConfig) :
    Nat → RateLimiterState → Int → Option (RateLimiterState × RateLimitResult)
  | 0, _, _ => none
  | fuel + 1, st, currentTime =>
    if activeBlock st.blockedUntil currentTime then
      let b := st.blockedUntil.getD 0
      some ({ st with stats := { st.stats with
                blockedRequests := st.stats.blockedRequests + 1 } },
            { allowed := false
              remaining := 0
              reset := b - currentTime
              retryAfter := some (b - currentTime) })
    else
      let st1 := if currentTime - st.lastResetTime > cfg.windowSize then
          { st with requestCount := 0, lastResetTime := currentTime }
        else st
      if (st1.requestCount : ℚ) ≥ cfg.burstLimit then
        checkRateLimitAux cfg fuel
          { st1 with blockedUntil := some (currentTime + cfg.blockDuration) } currentTime
      else if st1.requestCount ≥ cfg.maxRequestsPerMinute then
        some ({ st1 with stats := { st1.stats with
                  blockedRequests := st1.stats.blockedRequests + 1 } },
              { allowed := false
                remaining := 0
                reset := cfg.windowSize - (currentTime - st1.lastResetTime)
                retryAfter := none })
      else
        let st2 := { st1 with
          requestCount := st1.requestCount + 1
          stats := { st1.stats with
            successfulRequests := st1.stats.successfulRequests + 1
            totalRequests := st1.stats.totalRequests + 1 } }
        some (st2,
              { allowed := true
                remaining := (cfg.maxRequestsPerMinute : Int) - (st2.requestCount : Int)
                reset := cfg.windowSize - (currentTime - st2.lastResetTime)
                retryAfter := none })

/-- Entry point.  Fuel 2 is exact: the source recursion re-enters at most once
when the freshly set block is active, and any deeper recursion repeats an
identical state, i.e. the JS function would recurse forever (modelled `none`). -/
def checkRateLimit (cfg : RateLimiterConfig) (st : RateLimiterState) (now : Int) :
    Option (RateLimiterState × RateLimitResult) :=
  checkRateLimitAux cfg 2 st now

/-- `resetRateLimiter` of `src/services/rateLimiter.js`. -/
def resetRateLimiter (clearStats : Bool) (st : RateLimiterState) (now : Int) :
    RateLimiterState :=
  { requestCount := 0
    lastResetTime := now
    blockedUntil := none
    stats := if clearStats then ⟨0, 0, 0⟩ else st.stats }

/-- Folds a sequence of `checkRateLimit` calls at the given times over the
state, collecting the results; `none` as soon as one call diverges. -/
def runChecks (cfg : RateLimiterConfig) :
    List Int → RateLimiterState → Option (RateLimiterState × List RateLimitResult)
  | [], st => some (st, [])
  | t :: ts, st =>
    match checkRateLimit cfg st t with
    | none => none
    | some (st', r) =>
      match runChecks cfg ts st' with
      | none => none
      | some (st'', rs) => some (st'', r :: rs)

/-- The result object of the `part_006` revision's blocked/limited branches
omits some fields (JS `undefined`), hence all fields but `allowed` optional. -/
structure RateLimitResultV6 where
  allowed : Bool
  remaining : Option Int
  reset : Option Int
  retryAfter : Option Int
  deriving DecidableEq, Repr

/-- `checkRateLimit` of the `src/unnamed/part_006` revision: increments
`stats.totalRequests` on every call, clears `blockedUntil` on window reset,
and blocks (sets `blockedUntil`) directly when `requestCount` reaches
`maxRequestsPerMinute`; no recursion. -/
def checkRateLimitP6 (cfg : RateLimiterConfig) (st : RateLimiterState) (currentTime : Int) :
    RateLimiterState × RateLimitResultV6 :=
  let st0 := { st with stats := { st.stats with
                totalRequests := st.stats.totalRequests + 1 } }
  let st1 := if currentTime - st0.lastResetTime > cfg.windowSize then
      { st0 with requestCount := 0, lastResetTime := currentTime, blockedUntil := none }
    else st0
  if activeBlock st1.blockedUntil currentTime then
    let b := st1.blockedUntil.getD 0
    ({ st1 with stats := { st1.stats with
        blockedRequests := st1.stats.blockedRequests + 1 } },
     { allowed := false
       remaining := none
       reset := none
       retryAfter := some (b - currentTime) })
  else if st1.requestCount ≥ cfg.maxRequestsPerMinute then
    let b := currentTime + cfg.blockDuration
    ({ st1 with
        blockedUntil := some b
        stats := { st1.stats with blockedRequests := st1.stats.blockedRequests + 1 } },
     { allowed := false
       remaining := some 0
       reset := some (cfg.windowSize - (currentTime - st1.lastResetTime))
       retryAfter := some (b - currentTime) })
  else
    let st2 := { st1 with
      requestCount := st1.requestCount + 1
      stats := { st1.stats with
        successfulRequests := st1.stats.successfulRequests + 1 } }
    (st2,
     { allowed := true
       remaining := some ((cfg.maxRequestsPerMinute : Int) - (st2.requestCount : Int))
       reset := some (cfg.windowSize - (currentTime - st2.lastResetTime))
       retryAfter := none })

/-! ## Cache store (`src/services/cache.js` over `node-cache`)

The `node-cache` instance is configured with `stdTTL: 3600` (seconds),
`deleteOnExpire: true` and `maxKeys: 1000`.  Its store is modelled from its
documented TTL semantics as an association list from namespaced key to
`(value, expiresAt)` with expiry enforced lazily on `get` (an entry whose
`expiresAt` has been reached is removed and not returned), and `set`
throwing a cache-full error once `maxKeys` distinct keys are present. -/

/-- `stdTTL` of the `node-cache` instance, in seconds. -/
def cacheStdTTL : Int := 3600

/-- `maxKeys` of the `node-cache` instance. -/
def cacheMaxKeys : Nat := 1000

/-- One stored entry: value plus absolute expiry timestamp (ms). -/
structure CacheEntry (α : Type u) where
  value : α
  expiresAt : Int
  deriving DecidableEq, Repr

/-- `cacheStats` of `cache.js` (the wrapper's own counters, independent of
`node-cache` internals). -/
structure CacheStats where
  hits : Nat
  misses : Nat
  sets : Nat
  deletes : Nat
  deriving DecidableEq, Repr

/-- The wrapper state: the `node-cache` store plus the wrapper counters. -/
structure CacheState (α : Type u) where
  entries : List (String × CacheEntry α)
  stats : CacheStats
  deriving DecidableEq, Repr

/-- Association-list lookup (first binding wins; keys are kept distinct). -/
def entriesFind (es : List (String × CacheEntry α)) (k : String) : Option (CacheEntry α) :=
  match es.find? (fun p => p.1 = k) with
  | some p => some p.2
  | none => none

/-- Remove a key's binding. -/
def entriesErase (es : List (String × CacheEntry α)) (k : String) :
    List (String × CacheEntry α) :=
  es.filter (fun p => p.1 ≠ k)

/-- Insert-or-overwrite a binding. -/
def entriesInsert (es : List (String × CacheEntry α)) (k : String) (e : CacheEntry α) :
    List (String × CacheEntry α) :=
  (k, e) :: entriesErase es k

/-- `node-cache` `get`: returns the live value, removing (and not returning)
an entry whose expiry has been reached (`deleteOnExpire`, lazy check on read). -/
def ncGet (es : List (String × CacheEntry α)) (k : String) (now : Int) :
    Option α × List (String × CacheEntry α) :=
  match entriesFind es k with
  | none => (none, es)
  | some e => if now < e.expiresAt then (some e.value, es) else (none, entriesErase es k)

/-- Errors thrown by the cache layer. -/
inductive CacheError where
  /-- `TypeError('Cache key must be a non-empty string')`. -/
  | keyTypeError
  /-- `Error('Cannot cache undefined value')`. -/
  | undefinedValue
  /-- `node-cache` cache-full error when `maxKeys` is exceeded. -/
  | cacheFull
  deriving DecidableEq, Repr

/-- `node-cache` `set` with ttl in seconds: stores
`expiresAt = now + ttl * 1000`, throwing once `maxKeys` distinct keys exist
and `k` is new; returns `true` on success. -/
def ncSet (es : List (String × CacheEntry α)) (k : String) (v : α) (ttl : Int) (now : Int) :
    Except CacheError (List (String × CacheEntry α)) :=
  if (entriesFind es k).isNone ∧ es.length ≥ cacheMaxKeys then
    .error .cacheFull
  else
    .ok (entriesInsert es k ⟨v, now + ttl * 1000⟩)

/-- A JS cache-key argument: a string, or any non-string value. -/
inductive JsKey where
  | str (s : String)
  | nonString
  deriving DecidableEq, Repr

/-- The guard `!key || typeof key !== 'string'` shared by `getCachedData` and
`setCachedData`: rejects the empty string (falsy) and every non-string. -/
def invalidKey : JsKey → Bool
  | .str s => s = ""
  | .nonString => true

/-- `` `${namespace}:${key}` `` with namespace defaulting to `'default'`. -/
def getNamespacedKey (namespace' : Option String) (key : String) : String :=
  (namespace'.getD "default") ++ ":" ++ key

/-- `ttl || cache.options.stdTTL`: a falsy ttl (JS `undefined` or `0`) is
replaced by the default TTL. -/
def ttlOrDefault : Option Int → Int
  | none => cacheStdTTL
  | some t => if t = 0 then cacheStdTTL else t

/-- `setCachedData(key, data, ttl, options)` of `cache.js`, with `data = none`
standing for JS `undefined`.  Throws (`Except.error`) before touching the
store on an invalid key or undefined data; on success increments
`stats.sets` and returns `true`.  Result is paired with the post-state so a
throw demonstrably leaves the cache unchanged. -/
def setCachedData (key : JsKey) (data : Option α) (ttl : Option Int)
    (namespace' : Option String) (c : CacheState α) (now : Int) :
    Except CacheError Bool × CacheState α :=
  if invalidKey key then (.error .keyTypeError, c)
  else
    match data with
    | none => (.error .undefinedValue, c)
    | some v =>
      match key with
      | .nonString => (.error .keyTypeError, c)
      | .str k =>
        let namespacedKey := getNamespacedKey namespace' k
        match ncSet c.entries namespacedKey v (ttlOrDefault ttl) now with
        | .error e => (.error e, c)
        | .ok es' =>
          (.ok true, { entries := es'
                       stats := { c.stats with sets := c.stats.sets + 1 } })

/-- `getCachedData(key, options)` of `cache.js`.  `fallback`, when present, is
modelled by the value the awaited fallback function resolves to; `refreshTTL`
extends a hit's expiry to `now + stdTTL`.  Returns `some v` on a hit, the
fallback value after storing it on a miss with fallback, and `none`
(JS `null`) on a bare miss.  Throws before touching the store on an invalid
key. -/
def getCachedData (key : JsKey) (namespace' : Option String) (fallback : Option α)
    (refreshTTL : Bool) (c : CacheState α) (now : Int) :
    Except CacheError (Option α) × CacheState α :=
  if invalidKey key then (.error .keyTypeError, c)
  else
    match key with
    | .nonString => (.error .keyTypeError, c)
    | .str k =>
      let namespacedKey := getNamespacedKey namespace' k
      let (v?, es') := ncGet c.entries namespacedKey now
      match v? with
      | some v =>
        let es'' := if refreshTTL then
            entriesInsert es' namespacedKey ⟨v, now + cacheStdTTL * 1000⟩
          else es'
        (.ok (some v), { entries := es''
                         stats := { c.stats with hits := c.stats.hits + 1 } })
      | none =>
        let c1 : CacheState α :=
          { entries := es'
            stats := { c.stats with misses := c.stats.misses + 1 } }
        match fallback with
        | some fv =>
          let (r, c2) := setCachedData key (some fv) none namespace' c1 now
          match r with
          | .error e => (.error e, c2)
          | .ok _ => (.ok (some fv), c2)
        | none => (.ok none, c1)

/-! ## Governed fetch operations (`src/services/sleepData.js`) -/

/-- `ApiError` (also covering its subclasses): `NetworkError` is
`('No response from server', 'network_error', 503)` and `AuthError` is
`('Invalid API key', 'auth_error', 401)`.  The constructor maps a missing
status to 500 (`status || 500`). -/
structure ApiError where
  message : String
  etype : String
  status : Int
  deriving DecidableEq, Repr

/-- `new NetworkError()`. -/
def networkError : ApiError := ⟨"No response from server", "network_error", 503⟩

/-- `new AuthError()`. -/
def authError : ApiError := ⟨"Invalid API key", "auth_error", 401⟩

/-- An error value as it reaches `handleApiError`: an axios error with an
optional response status and optional `data.message`, an already-typed
`ApiError`, a connection abort (`error.code === 'ECONNABORTED'`), or any
other error with an optional message. -/
inductive JsError where
  | axios (status : Option Int) (dataMessage : Option String)
  | api (e : ApiError)
  | conn
  | other (message : Option String)
  deriving DecidableEq, Repr

/-- `handleApiError` of `src/services/sleepData.js`: classifies and rethrows.
Every branch throws, so it is modelled as the thrown `ApiError`. -/
def handleApiError : JsError → ApiError
  | .axios (some 400) m => ⟨m.getD "Invalid request parameters", "bad_request", 400⟩
  | .axios (some 401) _ => authError
  | .axios (some 404) _ => ⟨"Requested resource not found", "not_found", 404⟩
  | .axios (some 429) _ => ⟨"Too many requests", "rate_limit_error", 429⟩
  | .axios (some s) m => ⟨m.getD ("HTTP Error " ++ toString s), "http_error", s⟩
  | .axios none m =>
    -- `status` is `undefined`: the default branch runs and `ApiError`
    -- replaces the falsy status with 500.
    ⟨m.getD "HTTP Error undefined", "http_error", 500⟩
  | .api e => e
  | .conn => networkError
  | .other m => ⟨m.getD "Unknown API error", "unknown_error", 500⟩

/-- The loop body of `retryRequest(fn, retries)`.  `fn i` is the outcome of
the `i`-th attempt (0-based) and the second argument is the number of
iterations left (`retries - i`), so the loop guard `i < retries` is
"remaining > 0" and the last-iteration test `i === retries - 1` is
"remaining = 1".  A success returns immediately; the last failure is
rethrown; falling out of the loop (only possible with `retries = 0`)
returns JS `undefined` (`.ok none`).  The second result component counts
how many times `fn` was invoked. -/
def retryRequestGo (fn : Nat → Except JsError α) :
    Nat → Nat → Except JsError (Option α) × Nat
  | i, 0 => (.ok none, i)
  | i, remaining + 1 =>
    match fn i with
    | .ok v => (.ok (some v), i + 1)
    | .error e =>
      match remaining with
      | 0 => (.error e, i + 1)
      | r + 1 => retryRequestGo fn (i + 1) (r + 1)

/-- `retryRequest` of `src/services/sleepData.js` (`i` starts at 0; the
source default is `retries = 3`). -/
def retryRequest (fn : Nat → Except JsError α) (retries : Nat) :
    Except JsError (Option α) × Nat :=
  retryRequestGo fn 0 retries

/-- Outcome of one remote (`axios`) call: resolve with `response.data`, or
reject with an error. -/
inductive RemoteOutcome (α : Type u) where
  | success (data : α)
  | failure (e : JsError)
  deriving DecidableEq, Repr

/-- The shared mutable state a governed operation touches. -/
structure SysState (α : Type u) where
  limiter : RateLimiterState
  cache : CacheState α
  deriving DecidableEq, Repr

/-- Result of a governed fetch: the post-state, the value returned or the
`ApiError` thrown (`.ok none` is JS `undefined`), and whether the remote
call was invoked. -/
structure FetchTrace (α : Type u) where
  state : SysState α
  result : Except ApiError (Option α)
  remoteCalled : Bool
  deriving Repr

/-- Any JS object is truthy, so `!checkRateLimit()` — the guard in every
governed operation of `sleepData.js` — is always `false`: `checkRateLimit`
returns the result object, never a boolean. -/
def jsObjectTruthy (_r : RateLimitResult) : Bool := true

/-- Property access `cachedData?.timestamp` where `cachedData` is the
un-awaited Promise returned by the `async` `getCachedData`: a Promise is a
non-null object, so `?.` proceeds, and its `timestamp` property is
`undefined`. -/
def promiseTimestamp {α : Type u} (_p : Except CacheError (Option α)) : Option Int := none

/-- JS `x > y` with `x` possibly `undefined`: `undefined > y` is `false`
(NaN comparison). -/
def jsGtUndef (x : Option Int) (y : Int) : Bool :=
  match x with
  | none => false
  | some v => v > y

/-- `fetchUserSleepData(userId, options)` of `src/services/sleepData.js`
(first revision, lines 83–108), faithfully in source order:

1. `if (!checkRateLimit()) throw new ApiError('Rate limit exceeded',
   'rate_limit_error', 429)` — the result object is truthy, so the guard
   never fires;
2. `const cachedData = getCachedData(cacheKey)` **without** `await`: the
   async body runs (mutating the hit/miss counters) but `cachedData` is a
   Promise, so `cachedData?.timestamp > Date.now() - 21600 * 1000` compares
   `undefined` and is always `false`;
3. the remote call `axios.get(...)` runs; on success the response data is
   cached for 21600 s and returned, on failure `handleApiError` classifies;
4. anything thrown inside the `try` is routed through `handleApiError`.

`none` means the embedded rate-limiter call would diverge. -/
def fetchUserSleepData (cfg : RateLimiterConfig) (userId : String)
    (remote : RemoteOutcome α) (s : SysState α) (now : Int) :
    Option (FetchTrace α) :=
  match checkRateLimit cfg s.limiter now with
  | none => none
  | some (lim', rlRes) =>
    if !(jsObjectTruthy rlRes) then
      -- dead branch: `throw new ApiError('Rate limit exceeded', 'rate_limit_error', 429)`
      -- is caught by the surrounding `catch` and rethrown by `handleApiError`.
      some { state := { s with limiter := lim' }
             result := .error (handleApiError
               (.api ⟨"Rate limit exceeded", "rate_limit_error", 429⟩))
             remoteCalled := false }
    else
      let cacheKey := "userSleepData_" ++ userId
      let (cachePromise, cache1) := getCachedData (.str cacheKey) none none false s.cache now
      if jsGtUndef (promiseTimestamp cachePromise) (now - 21600 * 1000) then
        -- dead branch: would `return cachedData.data`, i.e. `undefined`.
        some { state := { limiter := lim', cache := cache1 }
               result := .ok none
               remoteCalled := false }
      else
        match remote with
        | .success data =>
          let (setRes, cache2) :=
            setCachedData (.str cacheKey) (some data) (some 21600) none cache1 now
          match setRes with
          | .error _ =>
            -- a cache-set throw is caught and classified by `handleApiError`
            -- as an unknown error (a `node-cache` error is not an ApiError).
            some { state := { limiter := lim', cache := cache2 }
                   result := .error (handleApiError (.other none))
                   remoteCalled := true }
          | .ok _ =>
            some { state := { limiter := lim', cache := cache2 }
                   result := .ok (some data)
                   remoteCalled := true }
        | .failure e =>
          some { state := { limiter := lim', cache := cache1 }
                 result := .error (handleApiError e)
                 remoteCalled := true }

/-! ## Rate limiter lemmas -/

/-- A `checkRateLimit` call that passes the block guard, whose window has not
elapsed and whose count is under the burst threshold: it either rejects at
the per-minute cap or allows and counts the request. -/
lemma checkRateLimit_step_open (cfg : RateLimiterConfig) (st : RateLimiterState) (t : Int)
    (hb : activeBlock st.blockedUntil t = false)
    (hw : t - st.lastResetTime ≤ cfg.windowSize)
    (hq : (st.requestCount : ℚ) < cfg.burstLimit) :
    checkRateLimit cfg st t =
      (if st.requestCount ≥ cfg.maxRequestsPerMinute then
        some ({ st with stats := { st.stats with
                  blockedRequests := st.stats.blockedRequests + 1 } },
              { allowed := false
                remaining := 0
                reset := cfg.windowSize - (t - st.lastResetTime)
                retryAfter := none })
      else
        some ({ st with
                  requestCount := st.requestCount + 1
                  stats := { st.stats with
                    successfulRequests := st.stats.successfulRequests + 1
                    totalRequests := st.stats.totalRequests + 1 } },
              { allowed := true
                remaining := (cfg.maxRequestsPerMinute : Int) - ((st.requestCount + 1 : Nat) : Int)
                reset := cfg.windowSize - (t - st.lastResetTime)
                retryAfter := none })) := by
  unfold checkRateLimit checkRateLimitAux
  rw [hb]
  simp only [Bool.false_eq_true, if_false]
  rw [if_neg (not_lt.mpr hw), if_neg (not_le.mpr hq)]

/-- A `checkRateLimit` call that passes the block guard but whose window has
elapsed: the count is reset, the window re-anchored at `t`, and (for a
positive per-minute maximum under the burst threshold) the call is allowed. -/
lemma checkRateLimit_step_reset (cfg : RateLimiterConfig) (st : RateLimiterState) (t : Int)
    (hb : activeBlock st.blockedUntil t = false)
    (hw : cfg.windowSize < t - st.lastResetTime)
    (hq : ¬ ((((0 : ℕ)) : ℚ) ≥ cfg.burstLimit))
    (hmaxpos : 0 < cfg.maxRequestsPerMinute) :
    checkRateLimit cfg st t =
      some ({ st with
                requestCount := 1
                lastResetTime := t
                stats := { st.stats with
                  successfulRequests := st.stats.successfulRequests + 1
                  totalRequests := st.stats.totalRequests + 1 } },
            { allowed := true
              remaining := (cfg.maxRequestsPerMinute : Int) - ((1 : Nat) : Int)
              reset := cfg.windowSize - (t - t)
              retryAfter := none }) := by
  unfold checkRateLimit checkRateLimitAux
  rw [hb]
  simp only [Bool.false_eq_true, if_false, if_pos hw]
  rw [if_neg hq, if_neg (not_le.mpr hmaxpos)]

/-- Invariant preservation for the in-window open run behind C3: after `k`
calls the count is `min k max`, the window anchor and (absent) block are
untouched, and the `i`-th remaining call is allowed exactly when
`k + i < max`. -/
lemma runChecks_open_window (cfg : RateLimiterConfig)
    (hburst : (cfg.maxRequestsPerMinute : ℚ) < cfg.burstLimit) :
    ∀ (ts : List Int) (st : RateLimiterState) (k : ℕ),
      st.requestCount = min k cfg.maxRequestsPerMinute →
      st.blockedUntil = none →
      (∀ t ∈ ts, t - st.lastResetTime ≤ cfg.windowSize) →
      ∃ st' rs, runChecks cfg ts st = some (st', rs) ∧
        rs.length = ts.length ∧
        st'.blockedUntil = none ∧
        st'.lastResetTime = st.lastResetTime ∧
        ∀ i (h : i < rs.length),
          (rs.get ⟨i, h⟩).allowed = decide (k + i < cfg.maxRequestsPerMinute)
  | [], st, k, _, hb, _ => ⟨st, [], rfl, rfl, hb, rfl, fun i h => absurd h (by simp)⟩
  | t :: ts, st, k, hc, hb, hin => by
    have hq : (st.requestCount : ℚ) < cfg.burstLimit := by
      calc (st.requestCount : ℚ) ≤ (cfg.maxRequestsPerMinute : ℚ) := by
            exact_mod_cast (by rw [hc]; exact min_le_right _ _)
        _ < cfg.burstLimit := hburst
    have hstep := checkRateLimit_step_open cfg st t
      (by rw [hb]; rfl) (hin t (List.mem_cons_self t ts)) hq
    by_cases hmax : st.requestCount ≥ cfg.maxRequestsPerMinute
    · -- per-minute cap reached: rejected, count unchanged
      rw [if_pos hmax] at hstep
      have hkmax : ¬ k < cfg.maxRequestsPerMinute := by
        rw [hc] at hmax; omega
      obtain ⟨st', rs, hrun, hlen, hbu, hlrt, hall⟩ :=
        runChecks_open_window cfg hburst ts
          { st with stats := { st.stats with
              blockedRequests := st.stats.blockedRequests + 1 } }
          (k + 1) (by show st.requestCount = _; rw [hc]; omega)
          hb (fun u hu => hin u (List.mem_cons_of_mem t hu))
      refine ⟨st', { allowed := false
                     remaining := 0
                     reset := cfg.windowSize - (t - st.lastResetTime)
                     retryAfter := none } :: rs, ?_, by simpa using hlen, hbu, hlrt, ?_⟩
      · simp only [runChecks, hstep, hrun]
      · rintro (_ | i) h
        · simpa using hkmax
        · have hi : i < rs.length := by simpa using h
          rw [List.get_cons_succ, show k + (i + 1) = k + 1 + i from by omega]
          exact hall i hi
    · -- allowed: count incremented
      rw [if_neg hmax] at hstep
      push_neg at hmax
      have hkmax : k < cfg.maxRequestsPerMinute := by
        rw [hc] at hmax; omega
      obtain ⟨st', rs, hrun, hlen, hbu, hlrt, hall⟩ :=
        runChecks_open_window cfg hburst ts
          { st with
              requestCount := st.requestCount + 1
              stats := { st.stats with
                successfulRequests := st.stats.successfulRequests + 1
                totalRequests := st.stats.totalRequests + 1 } }
          (k + 1) (by show st.requestCount + 1 = _; rw [hc]; omega)
          hb (fun u hu => hin u (List.mem_cons_of_mem t hu))
      refine ⟨st', { allowed := true
                     remaining := (cfg.maxRequestsPerMinute : Int) - ((st.requestCount + 1 : Nat) : Int)
                     reset := cfg.windowSize - (t - st.lastResetTime)
                     retryAfter := none } :: rs, ?_, by simpa using hlen, hbu, hlrt, ?_⟩
      · simp only [runChecks, hstep, hrun]
      · rintro (_ | i) h
        · simpa using hkmax
        · have hi : i < rs.length := by simpa using h
          rw [List.get_cons_succ, show k + (i + 1) = k + 1 + i from by omega]
          exact hall i hi

/-- Claim C3: within a single window, starting from `requestCount = 0` with no
active block, `checkRateLimit` returns `allowed: true` for exactly the first
`maxRequestsPerMinute` calls and `allowed: false` for every later call of the
window; once the window elapses, a new window starts and a call is allowed
again.  The burst-threshold hypothesis holds for every configuration the
source builds (`burstLimit = 1.5 × maxRequestsPerMinute` with a positive
maximum). -/
theorem claim_C3 (cfg : RateLimiterConfig) (st0 : RateLimiterState) (ts : List Int)
    (hcount : st0.requestCount = 0) (hblock : st0.blockedUntil = none)
    (hburst : (cfg.maxRequestsPerMinute : ℚ) < cfg.burstLimit)
    (hmaxpos : 0 < cfg.maxRequestsPerMinute)
    (hin : ∀ t ∈ ts, t - st0.lastResetTime ≤ cfg.windowSize) :
    ∃ st' rs, runChecks cfg ts st0 = some (st', rs) ∧
      rs.length = ts.length ∧
      (∀ i (h : i < rs.length),
        (rs.get ⟨i, h⟩).allowed = decide (i < cfg.maxRequestsPerMinute)) ∧
      ∀ t', cfg.windowSize < t' - st0.lastResetTime →
        ∃ st'' r, checkRateLimit cfg st' t' = some (st'', r) ∧ r.allowed = true := by
  obtain ⟨st', rs, hrun, hlen, hbu, hlrt, hall⟩ :=
    runChecks_open_window cfg hburst ts st0 0 (by simpa using hcount) hblock hin
  refine ⟨st', rs, hrun, hlen, fun i h => by simpa using hall i h, ?_⟩
  intro t' ht'
  have hb' : activeBlock st'.blockedUntil t' = false := by rw [hbu]; rfl
  have h0q : ¬ ((((0 : ℕ)) : ℚ) ≥ cfg.burstLimit) := by
    push_neg
    calc ((0 : ℕ) : ℚ) ≤ (cfg.maxRequestsPerMinute : ℚ) := by positivity
      _ < cfg.burstLimit := hburst
  exact ⟨_, _, checkRateLimit_step_reset cfg st' t' hb' (by rw [hlrt]; exact ht') h0q hmaxpos,
    rfl⟩

/-- Concrete instance of C3: two calls at times 5 and 10 inside the first
window under the default configuration, both allowed, and any later call
past the window is allowed again. -/
theorem claim_C3_w :
    ∃ st' rs,
      runChecks defaultRateLimiterConfig [5, 10] ⟨0, 0, none, ⟨0, 0, 0⟩⟩ = some (st', rs) ∧
      rs.length = 2 ∧
      (∀ i (h : i < rs.length),
        (rs.get ⟨i, h⟩).allowed =
          decide (i < defaultRateLimiterConfig.maxRequestsPerMinute)) ∧
      ∀ t', defaultRateLimiterConfig.windowSize < t' - (0 : Int) →
        ∃ st'' r, checkRateLimit defaultRateLimiterConfig st' t' = some (st'', r) ∧
          r.allowed = true :=
  claim_C3 defaultRateLimiterConfig ⟨0, 0, none, ⟨0, 0, 0⟩⟩ [5, 10] rfl rfl
    (by decide) (by decide) (by decide)

/-- A call that finds an active block (`blockedUntil` truthy and
`now < blockedUntil`) returns the blocked result immediately: only
`stats.blockedRequests` changes, at any recursion depth. -/
lemma checkRateLimitAux_blocked (cfg : RateLimiterConfig) (fuel : Nat)
    (st : RateLimiterState) (now : Int) (b : Int)
    (h : st.blockedUntil = some b) (hb0 : b ≠ 0) (hlt : now < b) :
    checkRateLimitAux cfg (fuel + 1) st now =
      some ({ st with stats := { st.stats with
                blockedRequests := st.stats.blockedRequests + 1 } },
            { allowed := false
              remaining := 0
              reset := b - now
              retryAfter := some (b - now) }) := by
  have hab : activeBlock st.blockedUntil now = true := by
    simp [activeBlock, h, hb0, hlt]
  unfold checkRateLimitAux
  rw [hab]
  simp [h]

/-- The burst branch: with no active block, the window not elapsed and the
count at or above the burst threshold, the call sets
`blockedUntil = now + blockDuration` and re-enters itself. -/
lemma checkRateLimitAux_burst (cfg : RateLimiterConfig) (fuel : Nat)
    (st : RateLimiterState) (now : Int)
    (hb : activeBlock st.blockedUntil now = false)
    (hw : now - st.lastResetTime ≤ cfg.windowSize)
    (hq : (st.requestCount : ℚ) ≥ cfg.burstLimit) :
    checkRateLimitAux cfg (fuel + 1) st now =
      checkRateLimitAux cfg fuel
        { st with blockedUntil := some (now + cfg.blockDuration) } now := by
  conv_lhs => rw [checkRateLimitAux]
  rw [hb]
  simp only [Bool.false_eq_true, if_false]
  rw [if_neg (not_lt.mpr hw), if_pos hq]

/-- The window-reset branch commutes: a call whose window has elapsed behaves
exactly like the same call on the state with `requestCount = 0` and
`lastResetTime = now` (whose own window condition is then false). -/
lemma checkRateLimitAux_reset (cfg : RateLimiterConfig) (fuel : Nat)
    (st : RateLimiterState) (now : Int)
    (hb : activeBlock st.blockedUntil now = false)
    (hw : cfg.windowSize < now - st.lastResetTime)
    (hws : 0 ≤ cfg.windowSize) :
    checkRateLimitAux cfg (fuel + 1) st now =
      checkRateLimitAux cfg (fuel + 1)
        { st with requestCount := 0, lastResetTime := now } now := by
  simp only [checkRateLimitAux]
  rw [hb]
  simp only [Bool.false_eq_true, if_false]
  rw [if_pos hw]
  simp only [sub_self]
  rw [if_neg (not_lt.mpr hws)]
  simp only [sub_self]

/-- The non-elapsed open step, generalized over the fuel. -/
lemma checkRateLimitAux_open (cfg : RateLimiterConfig) (fuel : Nat)
    (st : RateLimiterState) (t : Int)
    (hb : activeBlock st.blockedUntil t = false)
    (hw : t - st.lastResetTime ≤ cfg.windowSize)
    (hq : (st.requestCount : ℚ) < cfg.burstLimit) :
    checkRateLimitAux cfg (fuel + 1) st t =
      (if st.requestCount ≥ cfg.maxRequestsPerMinute then
        some ({ st with stats := { st.stats with
                  blockedRequests := st.stats.blockedRequests + 1 } },
              { allowed := false
                remaining := 0
                reset := cfg.windowSize - (t - st.lastResetTime)
                retryAfter := none })
      else
        some ({ st with
                  requestCount := st.requestCount + 1
                  stats := { st.stats with
                    successfulRequests := st.stats.successfulRequests + 1
                    totalRequests := st.stats.totalRequests + 1 } },
              { allowed := true
                remaining := (cfg.maxRequestsPerMinute : Int) - ((st.requestCount + 1 : Nat) : Int)
                reset := cfg.windowSize - (t - st.lastResetTime)
                retryAfter := none })) := by
  unfold checkRateLimitAux
  rw [hb]
  simp only [Bool.false_eq_true, if_false]
  rw [if_neg (not_lt.mpr hw), if_neg (not_le.mpr hq)]

/-- Claim C4: (a) while `now < blockedUntil` (with `blockedUntil` truthy)
every call returns `allowed: false` with `retryAfter = blockedUntil - now`
and leaves `blockedUntil` in place, so this persists until `now ≥
blockedUntil`; (b) a call that observes `requestCount ≥ burstLimit` (no
active block, window not elapsed) sets `blockedUntil = now + blockDuration`
and returns `allowed: false` with non-null `retryAfter = blockedUntil - now
= blockDuration`. -/
theorem claim_C4 (cfg : RateLimiterConfig) (st : RateLimiterState) (now : Int) :
    (∀ b, st.blockedUntil = some b → b ≠ 0 → now < b →
      checkRateLimit cfg st now =
        some ({ st with stats := { st.stats with
                  blockedRequests := st.stats.blockedRequests + 1 } },
              { allowed := false
                remaining := 0
                reset := b - now
                retryAfter := some (b - now) })) ∧
    (activeBlock st.blockedUntil now = false →
      now - st.lastResetTime ≤ cfg.windowSize →
      (st.requestCount : ℚ) ≥ cfg.burstLimit →
      0 < cfg.blockDuration → 0 ≤ now →
      checkRateLimit cfg st now =
        some ({ st with
                  blockedUntil := some (now + cfg.blockDuration)
                  stats := { st.stats with
                    blockedRequests := st.stats.blockedRequests + 1 } },
              { allowed := false
                remaining := 0
                reset := cfg.blockDuration
                retryAfter := some cfg.blockDuration })) := by
  constructor
  · intro b h hb0 hlt
    exact checkRateLimitAux_blocked cfg 1 st now b h hb0 hlt
  · intro hb hw hq hd hn
    rw [show checkRateLimit cfg st now = checkRateLimitAux cfg (1 + 1) st now from rfl]
    rw [checkRateLimitAux_burst cfg 1 st now hb hw hq]
    rw [show (1 : Nat) = 0 + 1 from rfl]
    rw [checkRateLimitAux_blocked cfg 0 _ now (now + cfg.blockDuration) rfl
      (by omega) (by omega)]
    simp [add_sub_cancel_left]

/-- Concrete instance of C4: a call in the blocked state at `now = 100000`
with `blockedUntil = 400000`, and a burst-threshold call at count 90 under
the default configuration. -/
theorem claim_C4_w :
    checkRateLimit defaultRateLimiterConfig ⟨0, 0, some 400000, ⟨0, 0, 0⟩⟩ 100000 =
      some (⟨0, 0, some 400000, ⟨0, 1, 0⟩⟩, ⟨false, 0, 300000, some 300000⟩) ∧
    checkRateLimit defaultRateLimiterConfig ⟨90, 0, none, ⟨0, 0, 0⟩⟩ 10 =
      some (⟨90, 0, some 300010, ⟨0, 1, 0⟩⟩, ⟨false, 0, 300000, some 300000⟩) := by
  constructor
  · have h := (claim_C4 defaultRateLimiterConfig ⟨0, 0, some 400000, ⟨0, 0, 0⟩⟩ 100000).1
      400000 rfl (by decide) (by decide)
    simpa using h
  · have h := (claim_C4 defaultRateLimiterConfig ⟨90, 0, none, ⟨0, 0, 0⟩⟩ 10).2
      rfl (by decide) (by decide) (by decide) (by decide)
    simpa using h

/-- `activeBlock` holds exactly for a truthy timestamp not yet reached. -/
lemma activeBlock_iff (bu : Option Int) (now : Int) :
    activeBlock bu now = true ↔ ∃ b, bu = some b ∧ b ≠ 0 ∧ now < b := by
  cases bu <;> simp [activeBlock]

/-- Frame facts of one `checkRateLimit` call, at any fuel: the statistics
deltas determined by `allowed` (`totalRequests` and `successfulRequests`
move together, `blockedRequests` moves on denial), and the fact that
`blockedUntil` is never cleared — it is left alone or set to
`now + blockDuration`. -/
lemma checkRateLimitAux_frame (cfg : RateLimiterConfig) (hws : 0 ≤ cfg.windowSize) :
    ∀ (fuel : Nat) (st : RateLimiterState) (now : Int)
      (st' : RateLimiterState) (r : RateLimitResult),
      checkRateLimitAux cfg fuel st now = some (st', r) →
      (st'.stats.totalRequests = st.stats.totalRequests + (if r.allowed then 1 else 0) ∧
       st'.stats.successfulRequests =
         st.stats.successfulRequests + (if r.allowed then 1 else 0) ∧
       st'.stats.blockedRequests =
         st.stats.blockedRequests + (if r.allowed then 0 else 1)) ∧
      (st'.blockedUntil = st.blockedUntil ∨
       st'.blockedUntil = some (now + cfg.blockDuration)) := by
  intro fuel
  induction fuel with
  | zero =>
    intro st now st' r h
    simp [checkRateLimitAux] at h
  | succ fuel ih =>
    intro st now st' r h
    by_cases hb : activeBlock st.blockedUntil now = true
    · obtain ⟨b, hsome, hb0, hlt⟩ := (activeBlock_iff _ _).mp hb
      rw [checkRateLimitAux_blocked cfg fuel st now b hsome hb0 hlt] at h
      simp only [Option.some.injEq, Prod.mk.injEq] at h
      obtain ⟨h1, h2⟩ := h
      subst h1
      subst h2
      simp
    · have hb' : activeBlock st.blockedUntil now = false := by
        simpa using hb
      by_cases hw : cfg.windowSize < now - st.lastResetTime
      · -- window elapsed: behave as on the reset state
        rw [checkRateLimitAux_reset cfg fuel st now hb' hw hws] at h
        by_cases hq : ((((0 : ℕ)) : ℚ) ≥ cfg.burstLimit)
        · rw [checkRateLimitAux_burst cfg fuel
            { st with requestCount := 0, lastResetTime := now } now hb'
            (by simpa [sub_self] using hws) hq] at h
          obtain ⟨hstats, hbu⟩ := ih
            { st with
                requestCount := 0
                lastResetTime := now
                blockedUntil := some (now + cfg.blockDuration) } now st' r h
          exact ⟨hstats, Or.inr (hbu.elim id id)⟩
        · rw [checkRateLimitAux_open cfg fuel
            { st with requestCount := 0, lastResetTime := now } now hb'
            (by simpa [sub_self] using hws) (lt_of_not_ge hq)] at h
          split at h <;>
          · simp only [Option.some.injEq, Prod.mk.injEq] at h
            obtain ⟨h1, h2⟩ := h
            subst h1
            subst h2
            simp
      · by_cases hq : ((st.requestCount : ℚ) ≥ cfg.burstLimit)
        · rw [checkRateLimitAux_burst cfg fuel st now hb' (not_lt.mp hw) hq] at h
          obtain ⟨hstats, hbu⟩ := ih
            { st with blockedUntil := some (now + cfg.blockDuration) } now st' r h
          exact ⟨hstats, Or.inr (hbu.elim id id)⟩
        · rw [checkRateLimitAux_open cfg fuel st now hb' (not_lt.mp hw)
            (lt_of_not_ge hq)] at h
          split at h <;>
          · simp only [Option.some.injEq, Prod.mk.injEq] at h
            obtain ⟨h1, h2⟩ := h
            subst h1
            subst h2
            simp

/-- Counterexample to C5: from zeroed statistics, a call denied at the
per-minute cap (count 60 = max, window fresh, no block) leaves
`stats.totalRequests` at 0 while `blockedRequests` becomes 1, so
`totalRequests = successfulRequests + blockedRequests` fails after the call:
the source increments `totalRequests` only on the allow path. -/
theorem claim_C5_cex :
    checkRateLimit defaultRateLimiterConfig ⟨60, 0, none, ⟨0, 0, 0⟩⟩ 10 =
      some (⟨60, 0, none, ⟨0, 1, 0⟩⟩, ⟨false, 0, 59990, none⟩) ∧
    ¬ (⟨60, 0, none, ⟨0, 1, 0⟩⟩ : RateLimiterState).stats.totalRequests =
        (⟨60, 0, none, ⟨0, 1, 0⟩⟩ : RateLimiterState).stats.successfulRequests +
        (⟨60, 0, none, ⟨0, 1, 0⟩⟩ : RateLimiterState).stats.blockedRequests := by
  exact ⟨by decide, by decide⟩

/-- Claim C5 as amended: `stats.totalRequests` and
`stats.successfulRequests` are incremented (together) exactly by calls
returning `allowed: true`; a disallowed call increments only
`stats.blockedRequests`.  Hence `totalRequests` tracks
`successfulRequests`, and `totalRequests = successfulRequests +
blockedRequests` fails once any call is disallowed. -/
theorem claim_C5_amended (cfg : RateLimiterConfig) (hws : 0 ≤ cfg.windowSize)
    (st : RateLimiterState) (now : Int) (st' : RateLimiterState) (r : RateLimitResult)
    (h : checkRateLimit cfg st now = some (st', r)) :
    st'.stats.totalRequests = st.stats.totalRequests + (if r.allowed then 1 else 0) ∧
    st'.stats.successfulRequests =
      st.stats.successfulRequests + (if r.allowed then 1 else 0) ∧
    st'.stats.blockedRequests =
      st.stats.blockedRequests + (if r.allowed then 0 else 1) :=
  (checkRateLimitAux_frame cfg hws 2 st now st' r h).1

/-- Concrete instance of the amended C5 at a denied call: only
`blockedRequests` moved. -/
theorem claim_C5_amended_w :
    (⟨60, 0, none, ⟨0, 1, 0⟩⟩ : RateLimiterState).stats.blockedRequests = 0 + 1 ∧
    (⟨60, 0, none, ⟨0, 1, 0⟩⟩ : RateLimiterState).stats.totalRequests = 0 := by
  have h := claim_C5_amended defaultRateLimiterConfig (by decide)
    ⟨60, 0, none, ⟨0, 0, 0⟩⟩ 10 ⟨60, 0, none, ⟨0, 1, 0⟩⟩ ⟨false, 0, 59990, none⟩
    (by decide)
  exact ⟨h.2.2, h.1⟩

/-- Counterexample to C6: (the limiter never clears `blockedUntil`) with an
expired block `blockedUntil = 100` and an elapsed window, the call at
`now = 500000` starts a new window yet leaves the stale `blockedUntil = 100`
in place; and with an active block `blockedUntil = 1000000` at `now = 70000`
(window long elapsed), the call returns early without resetting
`requestCount` or `lastResetTime`. -/
theorem claim_C6_cex :
    (checkRateLimit defaultRateLimiterConfig ⟨60, 0, some 100, ⟨0, 0, 0⟩⟩ 500000 =
      some (⟨1, 500000, some 100, ⟨1, 0, 1⟩⟩, ⟨true, 59, 60000, none⟩)) ∧
    (checkRateLimit defaultRateLimiterConfig ⟨60, 0, some 1000000, ⟨0, 0, 0⟩⟩ 70000 =
      some (⟨60, 0, some 1000000, ⟨0, 1, 0⟩⟩, ⟨false, 0, 930000, some 930000⟩)) := by
  exact ⟨by decide, by decide⟩

/-- Claim C6 as amended: (1) on a call with `now - windowStart > windowSize`
and no active block, the window is re-anchored (`lastResetTime = now`) and
the count restarts (at most 1 after the call); (2) `checkRateLimit` never
clears `blockedUntil` — it leaves it alone or sets `now + blockDuration`,
so an expired block value stays, stale but inert; (3) while actively blocked
the call does not reset the window even if it has elapsed; (4) only
`resetRateLimiter` sets `blockedUntil` back to `null`. -/
theorem claim_C6_amended (cfg : RateLimiterConfig) (st : RateLimiterState) (now : Int) :
    (activeBlock st.blockedUntil now = false →
      cfg.windowSize < now - st.lastResetTime →
      0 ≤ cfg.windowSize → 0 < cfg.blockDuration → 0 ≤ now →
      ∃ st' r, checkRateLimit cfg st now = some (st', r) ∧
        st'.lastResetTime = now ∧ st'.requestCount ≤ 1) ∧
    (0 ≤ cfg.windowSize →
      ∀ st' r, checkRateLimit cfg st now = some (st', r) →
        st'.blockedUntil = st.blockedUntil ∨
        st'.blockedUntil = some (now + cfg.blockDuration)) ∧
    (∀ b, st.blockedUntil = some b → b ≠ 0 → now < b →
      ∃ st' r, checkRateLimit cfg st now = some (st', r) ∧
        st'.requestCount = st.requestCount ∧
        st'.lastResetTime = st.lastResetTime ∧
        st'.blockedUntil = st.blockedUntil) ∧
    (∀ c, (resetRateLimiter c st now).blockedUntil = none) := by
  refine ⟨?_, ?_, ?_, fun _ => rfl⟩
  · intro hb hw hws hd hn
    rw [show checkRateLimit cfg st now = checkRateLimitAux cfg (1 + 1) st now from rfl,
      checkRateLimitAux_reset cfg 1 st now hb hw hws]
    by_cases hq : ((((0 : ℕ)) : ℚ) ≥ cfg.burstLimit)
    · rw [checkRateLimitAux_burst cfg 1
          { st with requestCount := 0, lastResetTime := now } now hb
          (by simpa [sub_self] using hws) hq,
        show (1 : Nat) = 0 + 1 from rfl,
        checkRateLimitAux_blocked cfg 0 _ now (now + cfg.blockDuration) rfl
          (by omega) (by omega)]
      exact ⟨_, _, rfl, rfl, by simp⟩
    · rw [checkRateLimitAux_open cfg 1
          { st with requestCount := 0, lastResetTime := now } now hb
          (by simpa [sub_self] using hws) (lt_of_not_ge hq)]
      by_cases hm : (0 : ℕ) ≥ cfg.maxRequestsPerMinute
      · rw [if_pos hm]
        exact ⟨_, _, rfl, rfl, by simp⟩
      · rw [if_neg hm]
        exact ⟨_, _, rfl, rfl, by simp⟩
  · intro hws st' r h
    exact (checkRateLimitAux_frame cfg hws 2 st now st' r h).2
  · intro b hsome hb0 hlt
    exact ⟨_, _, checkRateLimitAux_blocked cfg 1 st now b hsome hb0 hlt, rfl, rfl, rfl⟩

/-- Concrete instance of the amended C6: a fresh-window call re-anchors the
window, and a call on the expired-block state keeps the stale
`blockedUntil = some 100`. -/
theorem claim_C6_amended_w :
    (∃ st' r, checkRateLimit defaultRateLimiterConfig ⟨60, 0, some 100, ⟨0, 0, 0⟩⟩ 500000 =
        some (st', r) ∧ st'.lastResetTime = 500000 ∧ st'.requestCount ≤ 1) ∧
    ((⟨1, 500000, some 100, ⟨1, 0, 1⟩⟩ : RateLimiterState).blockedUntil = some 100 ∨
      (⟨1, 500000, some 100, ⟨1, 0, 1⟩⟩ : RateLimiterState).blockedUntil = some 800000) ∧
    (∃ st' r, checkRateLimit defaultRateLimiterConfig ⟨60, 0, some 1000000, ⟨0, 0, 0⟩⟩ 70000 =
        some (st', r) ∧ st'.requestCount = 60 ∧ st'.lastResetTime = 0 ∧
        st'.blockedUntil = some 1000000) ∧
    (resetRateLimiter false ⟨60, 0, some 1000000, ⟨0, 0, 0⟩⟩ 70000).blockedUntil = none := by
  refine ⟨?_, ?_, ?_, ?_⟩
  · exact (claim_C6_amended defaultRateLimiterConfig ⟨60, 0, some 100, ⟨0, 0, 0⟩⟩ 500000).1
      (by decide) (by decide) (by decide) (by decide) (by decide)
  · exact (claim_C6_amended defaultRateLimiterConfig ⟨60, 0, some 100, ⟨0, 0, 0⟩⟩ 500000).2.1
      (by decide) ⟨1, 500000, some 100, ⟨1, 0, 1⟩⟩ ⟨true, 59, 60000, none⟩ (by decide)
  · exact (claim_C6_amended defaultRateLimiterConfig ⟨60, 0, some 1000000, ⟨0, 0, 0⟩⟩
      70000).2.2.1 1000000 rfl (by decide) (by decide)
  · exact (claim_C6_amended defaultRateLimiterConfig ⟨60, 0, some 1000000, ⟨0, 0, 0⟩⟩
      70000).2.2.2 false

/-- The `part_006` revision does increment `stats.totalRequests` on every
call — the behaviour §4.2 of the spec describes, which
`src/services/rateLimiter.js` lacks. -/
lemma checkRateLimitP6_totalRequests (cfg : RateLimiterConfig)
    (st : RateLimiterState) (now : Int) :
    ((checkRateLimitP6 cfg st now).1).stats.totalRequests =
      st.stats.totalRequests + 1 := by
  unfold checkRateLimitP6
  dsimp only
  split_ifs <;> rfl

/-- The `part_006` revision also clears `blockedUntil` on a window reset
(for a config with a positive per-minute maximum the fresh-window call is
allowed), unlike `src/services/rateLimiter.js`. -/
lemma checkRateLimitP6_reset_clears_block (cfg : RateLimiterConfig)
    (st : RateLimiterState) (now : Int)
    (hw : cfg.windowSize < now - st.lastResetTime)
    (hm : 0 < cfg.maxRequestsPerMinute) :
    ((checkRateLimitP6 cfg st now).1).blockedUntil = none := by
  unfold checkRateLimitP6
  dsimp only
  rw [if_pos hw]
  simp only [activeBlock, Bool.false_eq_true, if_false]
  rw [if_neg (not_le.mpr hm)]

/-! ## Cache lemmas -/

/-- Looking up a just-inserted key finds the new entry. -/
lemma entriesFind_insert_self (es : List (String × CacheEntry α)) (k : String)
    (e : CacheEntry α) : entriesFind (entriesInsert es k e) k = some e := by
  unfold entriesFind entriesInsert
  rw [List.find?_cons_of_pos _ (by simp)]

/-- A valid non-empty key is not rejected by the shared guard. -/
lemma invalidKey_str_false (k : String) (hk : k ≠ "") :
    invalidKey (JsKey.str k) = false := by
  simp [invalidKey, hk]

/-- `setCachedData` on a valid key with a defined value and room in the
store: inserts the entry with `expiresAt = now + ttlOrDefault ttl * 1000`,
bumps `stats.sets`, returns `true`. -/
lemma setCachedData_valid {α : Type u} (v : α) (k : String) (hk : k ≠ "")
    (ns : Option String) (ttl : Option Int) (c : CacheState α) (now : Int)
    (hroom : c.entries.length < cacheMaxKeys ∨
      (entriesFind c.entries (getNamespacedKey ns k)).isSome) :
    setCachedData (.str k) (some v) ttl ns c now =
      (.ok true,
       ⟨entriesInsert c.entries (getNamespacedKey ns k)
          ⟨v, now + ttlOrDefault ttl * 1000⟩,
        { c.stats with sets := c.stats.sets + 1 }⟩) := by
  have hfull : ¬ (((entriesFind c.entries (getNamespacedKey ns k)).isNone = true) ∧
      c.entries.length ≥ cacheMaxKeys) := by
    rcases hroom with h | h
    · exact fun hc => absurd hc.2 (not_le.mpr h)
    · rintro ⟨h1, _⟩
      rw [Option.isNone_iff_eq_none] at h1
      rw [h1] at h
      simp at h
  simp only [setCachedData, invalidKey_str_false k hk, Bool.false_eq_true, if_false,
    ncSet]
  rw [if_neg hfull]

/-- `getCachedData` on a live entry: returns the value and bumps
`stats.hits` (no `refreshTTL`, no fallback). -/
lemma getCachedData_found {α : Type u} (k : String) (hk : k ≠ "") (ns : Option String)
    (c : CacheState α) (now : Int) (v : α) (exp : Int)
    (hfind : entriesFind c.entries (getNamespacedKey ns k) = some ⟨v, exp⟩)
    (hlive : now < exp) :
    getCachedData (.str k) ns none false c now =
      (.ok (some v), ⟨c.entries, { c.stats with hits := c.stats.hits + 1 }⟩) := by
  simp only [getCachedData, invalidKey_str_false k hk, Bool.false_eq_true, if_false,
    ncGet, hfind]
  rw [if_pos hlive]

/-- `getCachedData` once the entry's expiry has been reached: the entry is
not returned (lazy expiry) — the result is JS `null`. -/
lemma getCachedData_expired {α : Type u} (k : String) (hk : k ≠ "") (ns : Option String)
    (c : CacheState α) (now : Int) (v : α) (exp : Int)
    (hfind : entriesFind c.entries (getNamespacedKey ns k) = some ⟨v, exp⟩)
    (hdead : exp ≤ now) :
    (getCachedData (.str k) ns none false c now).1 = .ok none := by
  simp only [getCachedData, invalidKey_str_false k hk, Bool.false_eq_true, if_false,
    ncGet, hfind]
  rw [if_neg (not_lt.mpr hdead)]

/-- Claim C8: for a valid key, namespace, defined value and positive ttl
(seconds), `setCachedData` then `getCachedData` at the same instant returns
the value, and any read at or after `now + ttl·1000` (the stored
`expiresAt`) returns null — an expired entry is never served, with no sweep
involved.  `hroom` is the `node-cache` `maxKeys` bound (1000 keys). -/
theorem claim_C8 {α : Type u} (v : α) (k : String) (hk : k ≠ "")
    (ns : Option String) (ttl : Int) (httl : 0 < ttl)
    (c : CacheState α) (now : Int)
    (hroom : c.entries.length < cacheMaxKeys ∨
      (entriesFind c.entries (getNamespacedKey ns k)).isSome) :
    ∃ c', setCachedData (.str k) (some v) (some ttl) ns c now = (.ok true, c') ∧
      (getCachedData (.str k) ns none false c' now).1 = .ok (some v) ∧
      ∀ t, now + ttl * 1000 ≤ t →
        (getCachedData (.str k) ns none false c' t).1 = .ok none := by
  have hset := setCachedData_valid v k hk ns (some ttl) c now hroom
  have httl' : ttlOrDefault (some ttl) = ttl := by
    simp only [ttlOrDefault]
    rw [if_neg (by omega)]
  rw [httl'] at hset
  refine ⟨_, hset, ?_, ?_⟩
  · rw [getCachedData_found k hk ns _ now v (now + ttl * 1000)
      (entriesFind_insert_self _ _ _) (by omega)]
  · intro t ht
    exact getCachedData_expired k hk ns _ t v (now + ttl * 1000)
      (entriesFind_insert_self _ _ _) ht

/-- Concrete instance of C8: key `"k"`, value 42, ttl 60 s in an empty
cache at time 0; read back at 0, expired at 60000. -/
theorem claim_C8_w :
    ∃ c', setCachedData (.str "k") (some (42 : ℕ)) (some 60) none ⟨[], ⟨0, 0, 0, 0⟩⟩ 0 =
        (.ok true, c') ∧
      (getCachedData (.str "k") none none false c' 0).1 = .ok (some 42) ∧
      ∀ t, (0 : Int) + 60 * 1000 ≤ t →
        (getCachedData (.str "k") none none false c' t).1 = .ok none :=
  claim_C8 42 "k" (by decide) none 60 (by decide) ⟨[], ⟨0, 0, 0, 0⟩⟩ 0
    (Or.inl (by decide))

/-- Claim C9: a key that is the empty string or not a string makes both
`getCachedData` and `setCachedData` throw `TypeError` before touching the
store: the returned state — entries and hit/miss/set/delete counters — is
exactly the input state, with no prior `validateCacheKey` call needed. -/
theorem claim_C9 {α : Type u} (key : JsKey) (hkey : key = .str "" ∨ key = .nonString)
    (ns : Option String) (fallback : Option α) (refreshTTL : Bool)
    (data : Option α) (ttl : Option Int) (c : CacheState α) (now : Int) :
    getCachedData key ns fallback refreshTTL c now = (.error .keyTypeError, c) ∧
    setCachedData key data ttl ns c now = (.error .keyTypeError, c) := by
  have hik : invalidKey key = true := by
    rcases hkey with h | h <;> simp [h, invalidKey]
  constructor
  · simp only [getCachedData, hik, if_true]
  · simp only [setCachedData, hik, if_true]

/-- Concrete instance of C9: the empty-string key is rejected by both
operations on a non-empty cache, which is left untouched. -/
theorem claim_C9_w :
    getCachedData (.str "") none none false
        (⟨[("default:a", ⟨(7 : ℕ), 50⟩)], ⟨1, 2, 3, 4⟩⟩ : CacheState ℕ) 10 =
      (.error .keyTypeError, ⟨[("default:a", ⟨7, 50⟩)], ⟨1, 2, 3, 4⟩⟩) ∧
    setCachedData (.str "") (some (9 : ℕ)) (some 60) none
        (⟨[("default:a", ⟨(7 : ℕ), 50⟩)], ⟨1, 2, 3, 4⟩⟩ : CacheState ℕ) 10 =
      (.error .keyTypeError, ⟨[("default:a", ⟨7, 50⟩)], ⟨1, 2, 3, 4⟩⟩) :=
  claim_C9 (.str "") (Or.inl rfl) none none false (some 9) (some 60)
    ⟨[("default:a", ⟨7, 50⟩)], ⟨1, 2, 3, 4⟩⟩ 10

/-- Claim C10: a falsy ttl (JS `undefined` or `0`) is replaced by the
configured default of `cacheStdTTL = 3600` seconds: the entry is stored
with `expiresAt = now + 3600·1000` and does expire — reads strictly before
that instant return the value, reads at or after it return null, so the
`ttl` parameter cannot produce a non-expiring entry. -/
theorem claim_C10 {α : Type u} (v : α) (k : String) (hk : k ≠ "")
    (ns : Option String) (ttl : Option Int) (httl : ttl = none ∨ ttl = some 0)
    (c : CacheState α) (now : Int)
    (hroom : c.entries.length < cacheMaxKeys ∨
      (entriesFind c.entries (getNamespacedKey ns k)).isSome) :
    ∃ c', setCachedData (.str k) (some v) ttl ns c now = (.ok true, c') ∧
      entriesFind c'.entries (getNamespacedKey ns k) =
        some ⟨v, now + cacheStdTTL * 1000⟩ ∧
      (∀ t, t < now + cacheStdTTL * 1000 →
        (getCachedData (.str k) ns none false c' t).1 = .ok (some v)) ∧
      ∀ t, now + cacheStdTTL * 1000 ≤ t →
        (getCachedData (.str k) ns none false c' t).1 = .ok none := by
  have hset := setCachedData_valid v k hk ns ttl c now hroom
  have httl' : ttlOrDefault ttl = cacheStdTTL := by
    rcases httl with h | h <;> simp [h, ttlOrDefault]
  rw [httl'] at hset
  refine ⟨_, hset, entriesFind_insert_self _ _ _, ?_, ?_⟩
  · intro t ht
    rw [getCachedData_found k hk ns _ t v (now + cacheStdTTL * 1000)
      (entriesFind_insert_self _ _ _) ht]
  · intro t ht
    exact getCachedData_expired k hk ns _ t v (now + cacheStdTTL * 1000)
      (entriesFind_insert_self _ _ _) ht

/-- Concrete instance of C10: `ttl = 0` stores key `"k"` with expiry
`3600000` ms; alive at 3599999, gone at 3600000. -/
theorem claim_C10_w :
    ∃ c', setCachedData (.str "k") (some (7 : ℕ)) (some 0) none ⟨[], ⟨0, 0, 0, 0⟩⟩ 0 =
        (.ok true, c') ∧
      entriesFind c'.entries (getNamespacedKey none "k") =
        some ⟨7, (0 : Int) + cacheStdTTL * 1000⟩ ∧
      (∀ t, t < (0 : Int) + cacheStdTTL * 1000 →
        (getCachedData (.str "k") none none false c' t).1 = .ok (some 7)) ∧
      ∀ t, (0 : Int) + cacheStdTTL * 1000 ≤ t →
        (getCachedData (.str "k") none none false c' t).1 = .ok none :=
  claim_C10 7 "k" (by decide) none (some 0) (Or.inr rfl) ⟨[], ⟨0, 0, 0, 0⟩⟩ 0
    (Or.inl (by decide))

/-! ## Retry wrapper lemmas -/

/-- When every attempt in range fails, the loop runs all the iterations and
rethrows the last error. -/
lemma retryRequestGo_all_fail (fn : Nat → Except JsError α) (err : Nat → JsError) :
    ∀ (remaining i : Nat), 0 < remaining →
      (∀ j, i ≤ j → j < i + remaining → fn j = .error (err j)) →
      retryRequestGo fn i remaining = (.error (err (i + remaining - 1)), i + remaining) := by
  intro remaining
  induction remaining with
  | zero => omega
  | succ r ih =>
    intro i _ hfail
    rw [retryRequestGo, hfail i (le_refl i) (by omega)]
    cases r with
    | zero => simp
    | succ r' =>
      dsimp only
      rw [ih (i + 1) (by omega) (fun j hj1 hj2 => hfail j (by omega) (by omega))]
      have e1 : i + 1 + (r' + 1) - 1 = i + (r' + 1 + 1) - 1 := by omega
      have e2 : i + 1 + (r' + 1) = i + (r' + 1 + 1) := by omega
      rw [e1, e2]

/-- When the `d`-th attempt from `i` is the first success (and is within the
budget), the loop stops there with the value, having invoked `fn` exactly
`d + 1` times from `i`. -/
lemma retryRequestGo_first_success (fn : Nat → Except JsError α) (v : α) :
    ∀ (d i remaining : Nat), d < remaining →
      fn (i + d) = .ok v →
      (∀ j, i ≤ j → j < i + d → ∃ e, fn j = .error e) →
      retryRequestGo fn i remaining = (.ok (some v), i + d + 1) := by
  intro d
  induction d with
  | zero =>
    intro i remaining hd hok _
    cases remaining with
    | zero => omega
    | succ r => rw [retryRequestGo, show i + 0 = i from rfl] at *; rw [hok]
  | succ d ih =>
    intro i remaining hd hok hfail
    cases remaining with
    | zero => omega
    | succ r =>
      obtain ⟨e, he⟩ := hfail i (le_refl i) (by omega)
      rw [retryRequestGo, he]
      cases r with
      | zero => omega
      | succ r' =>
        dsimp only
        rw [ih (i + 1) (r' + 1) (by omega)
          (by rw [show i + 1 + d = i + (d + 1) from by omega]; exact hok)
          (fun j hj1 hj2 => hfail j (by omega) (by omega))]
        have e2 : i + 1 + d + 1 = i + (d + 1) + 1 := by omega
        rw [e2]

/-- Counterexample to C7: a remote call rejected with HTTP 401 on every
attempt — exactly what `handleApiError` classifies as `AuthError` — is
still attempted 3 times by `retryRequest` (the default budget), not
surfaced immediately after 1 attempt: the retry wrapper never inspects the
error before `i === retries - 1`. -/
theorem claim_C7_cex :
    retryRequest (fun _ => (.error (.axios (some 401) none) : Except JsError Nat)) 3 =
      (.error (.axios (some 401) none), 3) ∧
    handleApiError (.axios (some 401) none) = authError ∧
    (3 : ℕ) ≠ 1 :=
  ⟨rfl, rfl, by decide⟩

/-- Claim C7 as amended: `retryRequest` is classification-agnostic.  Any
sequence of failures — transient or authorization — is retried until the
attempt count reaches the budget and the last error is surfaced; a first
success at attempt `k` stops the loop after `k + 1` invocations.
Classification happens only afterwards in `handleApiError`: HTTP 401 maps
to `AuthError` and a connection abort to `NetworkError`.  So transient
failures are retried up to the limit with the last error surfaced (as the
claim says), but an auth rejection is retried just the same, not surfaced
immediately. -/
theorem claim_C7_amended (α : Type u) :
    (∀ (fn : Nat → Except JsError α) (retries : Nat) (err : Nat → JsError),
      0 < retries → (∀ j, j < retries → fn j = .error (err j)) →
      retryRequest fn retries = (.error (err (retries - 1)), retries)) ∧
    (∀ (fn : Nat → Except JsError α) (retries k : Nat) (v : α),
      k < retries → fn k = .ok v → (∀ j, j < k → ∃ e, fn j = .error e) →
      retryRequest fn retries = (.ok (some v), k + 1)) ∧
    (∀ m, handleApiError (.axios (some 401) m) = authError) ∧
    handleApiError .conn = networkError := by
  refine ⟨?_, ?_, fun m => rfl, rfl⟩
  · intro fn retries err hpos hfail
    have h := retryRequestGo_all_fail fn err retries 0 hpos
      (fun j hj1 hj2 => hfail j (by omega))
    rw [show (0 : ℕ) + retries = retries from by omega] at h
    exact h
  · intro fn retries k v hk hok hfail
    have h := retryRequestGo_first_success fn v k 0 retries hk
      (by rw [show (0 : ℕ) + k = k from by omega]; exact hok)
      (fun j hj1 hj2 => hfail j (by omega))
    rw [show (0 : ℕ) + k + 1 = k + 1 from by omega] at h
    exact h

/-- Concrete instance of the amended C7: three connection aborts exhaust the
budget and surface the last abort after 3 attempts; a success on the second
attempt stops after 2 attempts. -/
theorem claim_C7_amended_w :
    retryRequest (fun _ => (.error .conn : Except JsError Nat)) 3 = (.error .conn, 3) ∧
    retryRequest
        (fun j => if j = 1 then (.ok 5 : Except JsError Nat) else .error .conn) 3 =
      (.ok (some 5), 2) := by
  constructor
  · exact (claim_C7_amended Nat).1 _ 3 (fun _ => .conn) (by decide) (fun j _ => rfl)
  · exact (claim_C7_amended Nat).2.1 _ 3 1 5 (by decide) rfl
      (fun j hj => ⟨.conn, by
        have hj0 : j = 0 := by omega
        subst hj0
        rfl⟩)

/-! ## Governed fetch theorems -/

/-- Claim C1 fails on the code (code bug): with the limiter actively blocked
(`blockedUntil = 400000`, `now = 100000`, first conjunct: `checkRateLimit`
denies with `retryAfter`) and a cold cache, `fetchUserSleepData` still
invokes the remote call and returns its data.  The guard
`if (!checkRateLimit())` negates the always-truthy result object, so the
`'Rate limit exceeded'` `ApiError` is unreachable and no
RateLimitExceeded-kind failure (let alone one carrying `retryAfter`) can be
produced. -/
theorem claim_C1 :
    checkRateLimit defaultRateLimiterConfig ⟨0, 0, some 400000, ⟨0, 0, 0⟩⟩ 100000 =
      some (⟨0, 0, some 400000, ⟨0, 1, 0⟩⟩, ⟨false, 0, 300000, some 300000⟩) ∧
    ∃ tr, fetchUserSleepData defaultRateLimiterConfig "user123" (.success (42 : ℕ))
        ⟨⟨0, 0, some 400000, ⟨0, 0, 0⟩⟩, ⟨[], ⟨0, 0, 0, 0⟩⟩⟩ 100000 = some tr ∧
      tr.remoteCalled = true ∧
      tr.result = .ok (some 42) :=
  ⟨by decide,
   ⟨{ state := ⟨⟨0, 0, some 400000, ⟨0, 1, 0⟩⟩,
        ⟨[("default:userSleepData_user123", ⟨42, 21700000⟩)], ⟨0, 1, 1, 0⟩⟩⟩
      result := .ok (some 42)
      remoteCalled := true }, rfl, rfl, rfl⟩⟩

/-- Claim C2 fails on the code (code bug): with a fresh cache entry for the
operation's key (first conjunct: `getCachedData` returns it) and the
limiter open, `fetchUserSleepData` still consumes the rate limiter
(`requestCount` and `successfulRequests` go to 1 — the call happens before
the cache check) and still invokes the remote call, returning the remote
data instead of the cached value: `getCachedData` is called without
`await`, so the hit test compares `undefined` and never fires, and no
`fromCache` field exists on the result. -/
theorem claim_C2 :
    (getCachedData (.str "userSleepData_user123") none none false
        (⟨[("default:userSleepData_user123", ⟨(99 : ℕ), 10000000⟩)],
          ⟨0, 0, 0, 0⟩⟩ : CacheState ℕ) 1000).1 = .ok (some 99) ∧
    ∃ tr, fetchUserSleepData defaultRateLimiterConfig "user123" (.success (7 : ℕ))
        ⟨⟨0, 0, none, ⟨0, 0, 0⟩⟩,
         ⟨[("default:userSleepData_user123", ⟨99, 10000000⟩)], ⟨0, 0, 0, 0⟩⟩⟩ 1000 =
          some tr ∧
      tr.remoteCalled = true ∧
      tr.state.limiter.requestCount = 1 ∧
      tr.state.limiter.stats.successfulRequests = 1 ∧
      tr.result = .ok (some 7) :=
  ⟨rfl,
   ⟨{ state := ⟨⟨1, 0, none, ⟨1, 0, 1⟩⟩,
        ⟨[("default:userSleepData_user123", ⟨7, 21601000⟩)], ⟨1, 0, 1, 0⟩⟩⟩
      result := .ok (some 7)
      remoteCalled := true }, rfl, rfl, rfl, rfl, rfl⟩⟩

end Insomnia
